import Mathlib

/-
Verification of the label-app SVG templating engine against its
natural-language specification.

The Python sources under src/engine are shallowly embedded as Lean
functions:
  * strings are `String` / `List Char` (Python `str` is a sequence of
    code points, as is Lean's `String.data` on this toolchain);
  * the lxml element tree is the inductive type `Elem` below (with its
    child list as the mutually inductive `ElemList`, an isomorphic
    spelling of a list of elements), and in-place mutation is replaced
    by update at a child-index path;
  * fallible code returns `Except` / `Option`;
  * the two scans over character lists are written with an explicit
    structural fuel equal to the list length (always sufficient: each
    step consumes at least one character), so that they compute by
    kernel reduction; their step behaviour is proved below
    (`decodeList_cons`, `replaceList_cons`).
All definitions are translated from the source files, not from the
spec text.
-/

namespace LabelApp

/-! ## Identifier codec (src/engine/templater.py, `_decode_ai_id`)

`_decode_ai_id` is `re.sub` of `_x([0-9A-Fa-f]{4})_` by `chr` of the
hex group: a left-to-right scan that, at each position, replaces a
match of the fixed-width pattern `_x` + four hex digits + `_` by the
character with that code point and continues after the match,
otherwise advances one character.  Code points are mapped through
`Char.ofNat` (the source's `chr`; they agree on all non-surrogate
values, and the escape pattern in templates only carries valid
characters). -/

/-- Hex-digit test mirroring the character class `[0-9A-Fa-f]` of the
escape pattern in src/engine/templater.py. -/
def isHexDig (c : Char) : Bool :=
  (('0' ≤ c) && (c ≤ '9')) || (('A' ≤ c) && (c ≤ 'F')) || (('a' ≤ c) && (c ≤ 'f'))

/-- Numeric value of a hex digit, as `int(h, 16)` computes it per digit. -/
def hexVal (c : Char) : Nat :=
  if ('0' ≤ c) && (c ≤ '9') then c.toNat - 48
  else if ('A' ≤ c) && (c ≤ 'F') then c.toNat - 55
  else c.toNat - 87

/-- Does the escape pattern `_xHHHH_` match at the head of the list? -/
def escAt : List Char → Bool
  | '_' :: 'x' :: h1 :: h2 :: h3 :: h4 :: '_' :: _ =>
    isHexDig h1 && isHexDig h2 && isHexDig h3 && isHexDig h4
  | _ => false

/-- Code point denoted by the four hex digits of a head match. -/
def escCode : List Char → Nat
  | _ :: _ :: h1 :: h2 :: h3 :: h4 :: _ =>
    ((hexVal h1 * 16 + hexVal h2) * 16 + hexVal h3) * 16 + hexVal h4
  | _ => 0

/-- The `re.sub` scan, with structural fuel (one unit per character
consumed; the zero-fuel value is never reached from `decodeList`). -/
def decodeFuel : Nat → List Char → List Char
  | 0, l => l
  | _ + 1, [] => []
  | fuel + 1, c :: rest =>
    if escAt (c :: rest) then
      Char.ofNat (escCode (c :: rest)) :: decodeFuel fuel (rest.drop 6)
    else c :: decodeFuel fuel rest

/-- The `re.sub` scan of `_decode_ai_id` on a character list. -/
def decodeList (l : List Char) : List Char := decodeFuel l.length l

/-- `_decode_ai_id` from src/engine/templater.py. -/
def _decode_ai_id (s : String) : String := String.mk (decodeList s.data)

/-- Is there an occurrence of the escape pattern anywhere in the list? -/
def hasEsc : List Char → Bool
  | [] => false
  | c :: rest => escAt (c :: rest) || hasEsc rest

theorem decodeFuel_congr (f1 : Nat) :
    ∀ (f2 : Nat) (l : List Char), l.length ≤ f1 → l.length ≤ f2 →
      decodeFuel f1 l = decodeFuel f2 l := by
  induction f1 with
  | zero =>
    intro f2 l h1 h2
    cases l with
    | nil => cases f2 <;> rfl
    | cons c rest => simp at h1
  | succ g ih =>
    intro f2 l h1 h2
    cases l with
    | nil => cases f2 <;> rfl
    | cons c rest =>
      cases f2 with
      | zero => simp at h2
      | succ g2 =>
        have hr1 : rest.length ≤ g := by simpa using h1
        have hr2 : rest.length ≤ g2 := by simpa using h2
        have hd1 : (rest.drop 6).length ≤ g := by
          simp only [List.length_drop]; omega
        have hd2 : (rest.drop 6).length ≤ g2 := by
          simp only [List.length_drop]; omega
        show (if escAt (c :: rest) then _ else _) = (if escAt (c :: rest) then _ else _)
        by_cases he : escAt (c :: rest) = true
        · rw [if_pos he, if_pos he, ih g2 (rest.drop 6) hd1 hd2]
        · rw [if_neg (by simpa using he), if_neg (by simpa using he), ih g2 rest hr1 hr2]

/-- The one-step behaviour of the scan: a head match is decoded and
the scan continues after it, otherwise one character is emitted. -/
theorem decodeList_cons (c : Char) (rest : List Char) :
    decodeList (c :: rest)
      = if escAt (c :: rest) then
          Char.ofNat (escCode (c :: rest)) :: decodeList (rest.drop 6)
        else c :: decodeList rest := by
  show (if escAt (c :: rest) then _ else _) = _
  by_cases he : escAt (c :: rest) = true
  · rw [if_pos he, if_pos he]
    exact congrArg _ (decodeFuel_congr rest.length (rest.drop 6).length (rest.drop 6)
      (by simp only [List.length_drop]; omega) (le_refl _))
  · rw [if_neg he, if_neg he]
    rfl

theorem decodeList_no_esc (l : List Char) (h : hasEsc l = false) :
    decodeList l = l := by
  induction l with
  | nil => rfl
  | cons c rest ih =>
    have h2 : escAt (c :: rest) = false ∧ hasEsc rest = false := by
      simpa [hasEsc] using h
    rw [decodeList_cons, if_neg (by simp [h2.1]), ih h2.2]

theorem decodeList_esc_step (h1 h2 h3 h4 : Char) (rest : List Char)
    (e1 : isHexDig h1 = true) (e2 : isHexDig h2 = true)
    (e3 : isHexDig h3 = true) (e4 : isHexDig h4 = true) :
    decodeList ('_' :: 'x' :: h1 :: h2 :: h3 :: h4 :: '_' :: rest)
      = Char.ofNat (((hexVal h1 * 16 + hexVal h2) * 16 + hexVal h3) * 16 + hexVal h4)
        :: decodeList rest := by
  rw [decodeList_cons, if_pos (by simp [escAt, e1, e2, e3, e4])]
  rfl

/-! ## Substring search and replacement (Python `in` / `str.replace`)

`str.replace` rewrites the leftmost non-overlapping occurrences left
to right; `pat in s` is contiguous-sublist membership.  The patterns
this development uses are always nonempty (`[[...]]`, `var_`); on an
empty pattern the model returns the input, where Python would
interleave the replacement (never exercised here). -/

/-- Is `p` a prefix of the second list? -/
def isPrefList : List Char → List Char → Bool
  | [], _ => true
  | _ :: _, [] => false
  | p :: ps, c :: cs => p == c && isPrefList ps cs

/-- Does `pat` occur as a contiguous sublist (Python `pat in s`)? -/
def hasSub (pat : List Char) : List Char → Bool
  | [] => pat.isEmpty
  | c :: rest => isPrefList pat (c :: rest) || hasSub pat rest

/-- The `str.replace` scan, with structural fuel (one unit per
character consumed). -/
def replaceFuel (pat rep : List Char) : Nat → List Char → List Char
  | 0, l => l
  | _ + 1, [] => []
  | fuel + 1, c :: rest =>
    if pat.isEmpty then c :: rest
    else if isPrefList pat (c :: rest) then
      rep ++ replaceFuel pat rep fuel (rest.drop (pat.length - 1))
    else c :: replaceFuel pat rep fuel rest

/-- Python `s.replace(pat, rep)` on character lists. -/
def replaceList (pat rep l : List Char) : List Char := replaceFuel pat rep l.length l

theorem replaceFuel_congr (pat rep : List Char) (f1 : Nat) :
    ∀ (f2 : Nat) (l : List Char), l.length ≤ f1 → l.length ≤ f2 →
      replaceFuel pat rep f1 l = replaceFuel pat rep f2 l := by
  induction f1 with
  | zero =>
    intro f2 l h1 h2
    cases l with
    | nil => cases f2 <;> rfl
    | cons c rest => simp at h1
  | succ g ih =>
    intro f2 l h1 h2
    cases l with
    | nil => cases f2 <;> rfl
    | cons c rest =>
      cases f2 with
      | zero => simp at h2
      | succ g2 =>
        have hr1 : rest.length ≤ g := by simpa using h1
        have hr2 : rest.length ≤ g2 := by simpa using h2
        have hd1 : (rest.drop (pat.length - 1)).length ≤ g := by
          simp only [List.length_drop]; omega
        have hd2 : (rest.drop (pat.length - 1)).length ≤ g2 := by
          simp only [List.length_drop]; omega
        show (if pat.isEmpty then _ else _) = (if pat.isEmpty then _ else _)
        by_cases h0 : pat.isEmpty = true
        · rw [if_pos h0, if_pos h0]
        · rw [if_neg h0, if_neg h0]
          by_cases hp : isPrefList pat (c :: rest) = true
          · rw [if_pos hp, if_pos hp, ih g2 (rest.drop (pat.length - 1)) hd1 hd2]
          · rw [if_neg hp, if_neg hp, ih g2 rest hr1 hr2]

/-- The one-step behaviour of `str.replace`. -/
theorem replaceList_cons (pat rep : List Char) (c : Char) (rest : List Char) :
    replaceList pat rep (c :: rest)
      = if pat.isEmpty then c :: rest
        else if isPrefList pat (c :: rest) then
          rep ++ replaceList pat rep (rest.drop (pat.length - 1))
        else c :: replaceList pat rep rest := by
  show (if pat.isEmpty then _ else _) = _
  by_cases h0 : pat.isEmpty = true
  · rw [if_pos h0, if_pos h0]
  · rw [if_neg h0, if_neg h0]
    by_cases hp : isPrefList pat (c :: rest) = true
    · rw [if_pos hp, if_pos hp]
      exact congrArg _ (replaceFuel_congr pat rep rest.length _ _
        (by simp only [List.length_drop]; omega) (le_refl _))
    · rw [if_neg hp, if_neg hp]
      rfl

/-- Replacing a pattern that does not occur is the identity. -/
theorem replaceList_no_sub (pat rep l : List Char) (h : hasSub pat l = false) :
    replaceList pat rep l = l := by
  induction l with
  | nil => rfl
  | cons c rest ih =>
    have h2 : isPrefList pat (c :: rest) = false ∧ hasSub pat rest = false := by
      simpa [hasSub] using h
    have hne : pat.isEmpty = false := by
      cases pat with
      | nil => simp [isPrefList] at h2
      | cons p ps => rfl
    rw [replaceList_cons, if_neg (by simp [hne]), if_neg (by simp [h2.1]), ih h2.2]

/-! ## Python library helpers

`str.strip` / `int(...)` / `str.upper` / `str.endswith` as used by
src/engine.  The whitespace set is the ASCII part of Python's (the
non-ASCII Unicode spaces are not modelled; no template or claim uses
them); `int` is modelled on optionally signed digit strings with
surrounding whitespace (Python's underscore digit grouping is not
modelled); the upper-case map is ASCII (the tags and symbology names
involved are ASCII). -/

def pyWhitespace (c : Char) : Bool :=
  c == ' ' || c == '\t' || c == '\n' || c == '\r' || c == '\x0b' || c == '\x0c'

/-- Python `str.strip()` on the character list. -/
def pyStripList (l : List Char) : List Char :=
  ((l.dropWhile pyWhitespace).reverse.dropWhile pyWhitespace).reverse

/-- Python `str.strip()`. -/
def pyStrip (s : String) : String := String.mk (pyStripList s.data)

/-- Value of a nonempty all-digit string, most significant digit first. -/
def digitsToNat (l : List Char) : Nat :=
  l.foldl (fun acc c => acc * 10 + (c.toNat - 48)) 0

/-- Python `int(s)` (base 10), `none` when it raises `ValueError`. -/
def pyParseInt (s : String) : Option Int :=
  match pyStripList s.data with
  | [] => none
  | c :: rest =>
    if c == '+' then
      if !rest.isEmpty && rest.all Char.isDigit then some (digitsToNat rest : Int) else none
    else if c == '-' then
      if !rest.isEmpty && rest.all Char.isDigit then some (-(digitsToNat rest : Int)) else none
    else if (c :: rest).all Char.isDigit then some (digitsToNat (c :: rest) : Int) else none

/-- ASCII uppercase of one character. -/
def upChar (c : Char) : Char :=
  if ('a' ≤ c) && (c ≤ 'z') then Char.ofNat (c.toNat - 32) else c

/-- Python `str.upper()` (ASCII). -/
def pyUpper (s : String) : String := String.mk (s.data.map upChar)

/-- Python `str.endswith(suffix)`. -/
def endsWithStr (s suffix : String) : Bool :=
  isPrefList suffix.data.reverse s.data.reverse

/-! ## Text truncation (src/engine/templater.py, `_set_text`)

`_set_text` reads the element's `data-maxlen` attribute; when it is a
nonempty string parsing as an int `n` and `len(value) > n`, the text
becomes `value[:max(0, n-1)]` with the source's truncation literal
appended; otherwise the value is used verbatim.  The element's
children are discarded and its text set. -/

/-- The truncation literal the source appends on overflow.  The bytes
in src/engine/templater.py line 41 are C3 A2 E2 82 AC C2 A6 — the
UTF-8 encoding of U+2026 mis-decoded as cp1252 and re-encoded — so
the Python string literal is the THREE characters U+00E2, U+20AC,
U+00A6 (mojibake of the intended single ellipsis). -/
def truncMarker : String := "\u00E2\u20AC\u00A6"

/-- The truncation `value[:max(0, n-1)]` plus the marker, applied when
`len(value) > n`. -/
def truncVal (n : Int) (value : String) : String :=
  if (value.length : Int) > n then
    String.mk (value.data.take (max 0 (n - 1)).toNat) ++ truncMarker
  else value

/-! ## Element tree (lxml `_Element` as used by src/engine/templater.py)

An element has a tag, an ordered attribute list, text content (lxml's
`.text`, the text before the first child) and ordered children.  Tags
are the local names of the single SVG namespace the templates use, so
the source's `node.tag.endswith('text')` is `endsWithStr` on the tag
and the XPath `.//svg:text` becomes a first-match preorder descendant
search for the exact tag `"text"`.  In-place mutation is replaced by
update at a child-index path; an element that was detached from the
tree by an earlier mutation (its recorded path no longer resolves) is
treated as absent, matching the fact that mutating a detached lxml
node leaves the serialized output unchanged. -/

mutual

inductive Elem where
  | mk (tag : String) (attrs : List (String × String)) (text : String)
       (children : ElemList)

inductive ElemList where
  | nil
  | cons (head : Elem) (tail : ElemList)

end

def Elem.tag : Elem → String
  | .mk t _ _ _ => t

def Elem.attrs : Elem → List (String × String)
  | .mk _ a _ _ => a

def Elem.text : Elem → String
  | .mk _ _ x _ => x

def Elem.children : Elem → ElemList
  | .mk _ _ _ c => c

/-- Build an `ElemList` from a list (for writing concrete templates). -/
def elemsOf : List Elem → ElemList
  | [] => .nil
  | e :: rest => .cons e (elemsOf rest)

def ElemList.get? : ElemList → Nat → Option Elem
  | .nil, _ => none
  | .cons e _, 0 => some e
  | .cons _ rest, n + 1 => rest.get? n

def ElemList.set : ElemList → Nat → Elem → ElemList
  | .nil, _, _ => .nil
  | .cons _ rest, 0, v => .cons v rest
  | .cons e rest, n + 1, v => .cons e (rest.set n v)

/-- lxml `el.get(k)`: first attribute with the given name. -/
def Elem.getAttr (e : Elem) (k : String) : Option String :=
  match e.attrs.find? (fun kv => kv.1 == k) with
  | some kv => some kv.2
  | none => none

/-- lxml `el.set(k, v)`: replace in place, or append a new attribute. -/
def setAttrList : List (String × String) → String → String → List (String × String)
  | [], k, v => [(k, v)]
  | (k0, v0) :: rest, k, v =>
    if k0 == k then (k, v) :: rest else (k0, v0) :: setAttrList rest k v

def Elem.setAttr (e : Elem) (k v : String) : Elem :=
  .mk e.tag (setAttrList e.attrs k v) e.text e.children

/-- Subtree at a child-index path (`none` when the path dangles). -/
def getAt : Elem → List Nat → Option Elem
  | e, [] => some e
  | e, i :: p =>
    match e.children.get? i with
    | none => none
    | some c => getAt c p

/-- Rebuild the tree with `f` applied at the subtree the path points
to; the tree is unchanged when the path dangles. -/
def updAt : Elem → List Nat → (Elem → Elem) → Elem
  | e, [], f => f e
  | e, i :: p, f =>
    match e.children.get? i with
    | none => e
    | some c => .mk e.tag e.attrs e.text (e.children.set i (updAt c p f))

mutual

/-- First element with exactly the given tag in a forest, preorder
(XPath `.//svg:tag` document order), as a path; `i` is the index of
the first forest entry within its parent. -/
def findTagL (tgt : String) : ElemList → Nat → Option (List Nat)
  | .nil, _ => none
  | .cons e rest, i =>
    if e.tag == tgt then some [i]
    else
      match findTagSub tgt e with
      | some p => some (i :: p)
      | none => findTagL tgt rest (i + 1)

/-- Search below one element. -/
def findTagSub (tgt : String) : Elem → Option (List Nat)
  | .mk _ _ _ ch => findTagL tgt ch 0

end

/-- `_ensure_text` from src/engine/templater.py, as a path relative to
the given element: the element itself when its tag ends in `text`,
else its first `text` descendant. -/
def _ensure_text (e : Elem) : Option (List Nat) :=
  if endsWithStr e.tag "text" then some [] else findTagL "text" e.children 0

/-- `_ensure_image` from src/engine/templater.py, analogous. -/
def _ensure_image (e : Elem) : Option (List Nat) :=
  if endsWithStr e.tag "image" then some [] else findTagL "image" e.children 0

/-- The maxlen in effect for an element: its `data-maxlen` attribute
when present, nonempty (`if maxlen:`) and parseable (`int` does not
raise). -/
def maxlenOf (e : Elem) : Option Int :=
  match e.getAttr "data-maxlen" with
  | none => none
  | some s => if s == "" then none else pyParseInt s

/-- `_set_text` from src/engine/templater.py: truncate per
`data-maxlen`, drop all children, set the text. -/
def _set_text (e : Elem) (value : String) : Elem :=
  .mk e.tag e.attrs
    (match maxlenOf e with
     | none => value
     | some n => truncVal n value)
    .nil

mutual

/-- The id index of `fill_svg`: every element of the tree in document
order (preorder, root included) with a nonempty `id` attribute
(`if _id:`), keyed by the decoded id, paired with its path. -/
def walkE : Elem → List Nat → List (String × List Nat)
  | .mk _ attrs _ ch, base =>
    (match attrs.find? (fun kv => kv.1 == "id") with
     | some kv => if kv.2 == "" then [] else [(_decode_ai_id kv.2, base)]
     | none => [])
    ++ walkL ch base 0

/-- Walk a forest whose entry `i` sits at `base ++ [i]`. -/
def walkL : ElemList → List Nat → Nat → List (String × List Nat)
  | .nil, _, _ => []
  | .cons e rest, base, i => walkE e (base ++ [i]) ++ walkL rest base (i + 1)

end

def walkIds (t : Elem) : List (String × List Nat) := walkE t []

/-- Lookup in the index with the last binding winning, matching
`idx[...] = el` overwriting earlier document-order entries. -/
def lookupLast (idx : List (String × List Nat)) (name : String) : Option (List Nat) :=
  match idx.reverse.find? (fun kv => kv.1 == name) with
  | some kv => some kv.2
  | none => none

/-! ## Token pre-pass (src/engine/templater.py, `_token_fill`)

`_token_fill` does plain-text `str.replace` of `[[k]]` by the value,
first for every key of the map in order, then for every key with all
occurrences of `var_` removed (Python `k.replace("var_", "")`). -/

/-- `k.replace("var_", "")` from `_token_fill`. -/
def strippedKey (k : String) : String :=
  String.mk (replaceList "var_".data [] k.data)

/-- The literal token `[[k]]`. -/
def tokenOf (k : String) : List Char :=
  '[' :: '[' :: (k.data ++ [']', ']'])

/-- One `s.replace` step of the token pass. -/
def replStep (s : List Char) (kv : String × String) : List Char :=
  replaceList (tokenOf kv.1) kv.2.data s

/-- The fold over the full-name pairs only (the first half of `pairs`). -/
def tokenFillFull (s : List Char) (values : List (String × String)) : List Char :=
  values.foldl replStep s

/-- The stripped-name pairs (second half of `pairs`). -/
def strippedPairs (values : List (String × String)) : List (String × String) :=
  values.map (fun kv => (strippedKey kv.1, kv.2))

/-- `_token_fill` from src/engine/templater.py.  The value map is an
ordered association list, matching Python dict iteration order. -/
def _token_fill (s : String) (values : List (String × String)) : String :=
  String.mk ((values ++ strippedPairs values).foldl replStep s.data)

/-! ## Filling (src/engine/templater.py, `fill_svg`), tree stage

`fill_svg` token-fills the raw text, parses it, builds the id index,
then for every `(pid, val)` of the map in order mutates the text
target under the indexed element, and finally sets the barcode image
references.  Parsing itself is outside the embedding: `fill_svg_tree`
is the pipeline from the parsed tree on, and `serializeElem` stands
for `etree.tostring`. -/

/-- One iteration of the `for pid, val in values.items()` loop:
look up the index, find the text target, `_set_text` it. -/
def applyValue (idx : List (String × List Nat)) (t : Elem) (pid val : String) : Elem :=
  match lookupLast idx pid with
  | none => t
  | some p =>
    match getAt t p with
    | none => t
    | some node =>
      match _ensure_text node with
      | none => t
      | some rel => updAt t (p ++ rel) (fun tgt => _set_text tgt val)

/-- Python truthiness of the optional barcode data URI
(`if barcode_data_uri:`): `None` and the empty string are falsy. -/
def truthyOptStr : Option String → Bool
  | none => false
  | some s => !(s == "")

/-- lxml element truthiness (`_Element.__bool__`): an element is
truthy iff it has children.  This is what Python's `or` consults in
the chained `idx.get(...) or idx.get(...)` lookups. -/
def elemTruthy (e : Elem) : Bool :=
  match e.children with
  | .nil => false
  | .cons _ _ => true

/-- Resolve an index name to its element in the current tree. -/
def resolveName (idx : List (String × List Nat)) (t : Elem) (name : String) :
    Option (List Nat × Elem) :=
  match lookupLast idx name with
  | none => none
  | some p =>
    match getAt t p with
    | none => none
    | some e => some (p, e)

/-- Python `a or b or c or d`: the first truthy operand, else the
value of the last operand (even when that value is falsy). -/
def pyOrChain : List (Option (List Nat × Elem)) → Option (List Nat × Elem)
  | [] => none
  | [x] => x
  | x :: rest =>
    match x with
    | some pe => if elemTruthy pe.2 then some pe else pyOrChain rest
    | none => pyOrChain rest

/-- The namespaced legacy image-reference attribute (`XLINK_NS` href)
that `fill_svg` sets alongside `href`. -/
def xlinkHref : String := "\x7bhttp://www.w3.org/1999/xlink\x7dhref"

/-- The barcode step of `fill_svg`: slot lookup through the `or` chain
of reserved/legacy names, then `href` and the xlink attribute set on
the image target. -/
def barcodeStage (idx : List (String × List Nat)) (t : Elem) (b : Option String) : Elem :=
  if truthyOptStr b then
    let uri := match b with
      | some s => s
      | none => ""
    match pyOrChain [resolveName idx t "var_BarcodeImg", resolveName idx t "var_Barcode",
        resolveName idx t "_Image_var_Barcode", resolveName idx t "var_x5F_BarcodeImg"] with
    | none => t
    | some pe =>
      match _ensure_image pe.2 with
      | none => t
      | some rel =>
        updAt t (pe.1 ++ rel) (fun img => (img.setAttr "href" uri).setAttr xlinkHref uri)
  else t

/-- `fill_svg` from the parsed tree on: id index (built once, before
any mutation), value loop, barcode step. -/
def fill_svg_tree (t : Elem) (values : List (String × String)) (b : Option String) : Elem :=
  barcodeStage (walkIds t)
    (values.foldl (fun acc kv => applyValue (walkIds t) acc kv.1 kv.2) t) b

/-- Attribute serialization for `serializeElem`. -/
def serializeAttrs : List (String × String) → String
  | [] => ""
  | (k, v) :: rest => " " ++ k ++ "=\"" ++ v ++ "\"" ++ serializeAttrs rest

mutual

/-- Serialization of the tree back to text, standing for
`etree.tostring`: a fixed rendering of tag, attributes in order, text
and children. -/
def serializeElem : Elem → String
  | .mk tag attrs txt children =>
    "<" ++ tag ++ serializeAttrs attrs ++ ">" ++ txt
      ++ serializeL children ++ "</" ++ tag ++ ">"

/-- Serialization of a forest, in order. -/
def serializeL : ElemList → String
  | .nil => ""
  | .cons e rest => serializeElem e ++ serializeL rest

end

/-! ## Grid composition (src/engine/pdf.py, `svgs_grid_to_pdf`)

The layout arithmetic of `svgs_grid_to_pdf`: page size resolution,
column clamping, row count, cell size and row-major cell assignment.
Python floats are modelled as rationals (`mm = 72/25.4`; every
quantity the claims mention is a sign/comparison fact these agree on),
and Python floor division of the nonnegative ints involved is `Nat`
division. -/

/-- `reportlab.lib.units.mm` (points per millimetre), `72/25.4`. -/
def mmUnit : ℚ := 360 / 127

/-- `PAGES.get(page_size.upper(), A4)`: A4/LETTER/A3 in points,
unknown tags falling back to A4. -/
def pageDimsOf (tag : String) : ℚ × ℚ :=
  if pyUpper tag == "A4" then (210 * mmUnit, 297 * mmUnit)
  else if pyUpper tag == "LETTER" then (612, 792)
  else if pyUpper tag == "A3" then (297 * mmUnit, 420 * mmUnit)
  else (210 * mmUnit, 297 * mmUnit)

/-- `cols = max(1, int(cols))`. -/
def gridCols (cols : Int) : Nat := (max 1 cols).toNat

/-- `rows = max(1, (n + cols - 1) // cols)` for the document count `n`. -/
def gridRowsCount (n : Nat) (cols : Int) : Nat :=
  max 1 ((n + gridCols cols - 1) / gridCols cols)

/-- The layout data `svgs_grid_to_pdf` computes before drawing:
page size, clamped column count, row count, cell size, and the
`(row, col) = (idx // cols, idx % cols)` cell of each document. -/
structure GridLayout where
  pageW : ℚ
  pageH : ℚ
  cols : Nat
  rows : Nat
  cellW : ℚ
  cellH : ℚ
  cells : List (Nat × Nat)

/-- `svgs_grid_to_pdf` from src/engine/pdf.py, restricted to its
layout arithmetic (the reportlab drawing calls consume these numbers
unchanged). -/
def svgs_grid_to_pdf (n : Nat) (page_size : String) (cols : Int)
    (margin_mm gutter_mm : ℚ) : GridLayout :=
  let pw := (pageDimsOf page_size).1
  let ph := (pageDimsOf page_size).2
  let margin := margin_mm * mmUnit
  let gutter := gutter_mm * mmUnit
  let c := gridCols cols
  let r := gridRowsCount n cols
  GridLayout.mk pw ph c r
    ((pw - 2 * margin - ((c : ℚ) - 1) * gutter) / (c : ℚ))
    ((ph - 2 * margin - ((r : ℚ) - 1) * gutter) / (r : ℚ))
    ((List.range n).map (fun idx => (idx / c, idx % c)))

/-! ## Batch packaging (src/engine/pdf.py, `zip_pdfs`)

`zip_pdfs` opens a fresh archive and calls `zf.writestr(name, data)`
once per input entry, in order.  The archive is modelled as its member
list; `writestr` appends a member with exactly the given name and
bytes (bytes as `List Nat`). -/

structure ZipMember where
  name : String
  bytes : List Nat
deriving DecidableEq

/-- `zf.writestr(name, data)`. -/
def writestr (archive : List ZipMember) (name : String) (data : List Nat) :
    List ZipMember :=
  archive ++ [ZipMember.mk name data]

/-- `zip_pdfs` from src/engine/pdf.py. -/
def zip_pdfs (items : List (String × List Nat)) : List ZipMember :=
  items.foldl (fun acc nd => writestr acc nd.1 nd.2) []

/-! ## Barcode encoding (src/engine/barcode.py, `generate_barcode_png`)

The function strips the payload (after `data or ""`), rejects the
empty result, dispatches on `kind.upper()`, validates/normalizes the
EAN-13 digit string, and hands off to the external symbology library.
That hand-off (out of scope per the spec) is recorded as a
`BarcodeOut` value naming the symbology and the exact payload passed
to it; errors are Python `ValueError`s with their messages. -/

inductive BarcodeOut where
  | ean13Sym (digits : String)
  | code128Sym (payload : String)
deriving DecidableEq

/-- Python `data or ""` for an optional string. -/
def orEmpty : Option String → String
  | none => ""
  | some s => s

/-- The body of `generate_barcode_png` after `data = (data or "").strip()`:
empty check, dispatch on `kind.upper()`, EAN-13 digit filtering and
count validation (a 13-digit payload keeps its first 12 digits). -/
def pyBarcodeCore (d kind : String) : Except String BarcodeOut :=
  if d == "" then Except.error "Empty barcode data"
  else if pyUpper kind == "EAN13" then
    (if ((d.data.filter Char.isDigit).length == 12)
        || ((d.data.filter Char.isDigit).length == 13) then
      Except.ok (BarcodeOut.ean13Sym (String.mk
        (if (d.data.filter Char.isDigit).length == 13 then
          (d.data.filter Char.isDigit).take 12
         else d.data.filter Char.isDigit)))
    else Except.error "EAN-13 requires 12 or 13 digits")
  else if pyUpper kind == "CODE128" then Except.ok (BarcodeOut.code128Sym d)
  else Except.error ("Unsupported barcode kind: " ++ kind)

/-- `generate_barcode_png` from src/engine/barcode.py. -/
def generate_barcode_png (data : Option String) (kind : String) :
    Except String BarcodeOut :=
  pyBarcodeCore (pyStrip (orEmpty data)) kind

/-- Is the result an error? -/
def isErrB {α : Type} (r : Except String α) : Bool :=
  match r with
  | Except.error _ => true
  | Except.ok _ => false

/-! ## Claims -/

/-- C1 (counterexample): the claimed round-trip fails on the code.
`_x5F_` carries only two hex digits, so the four-hex-digit pattern
`_xHHHH_` does not match anywhere in `var_x5F_BarcodeImg`, and
`_decode_ai_id` returns the string unchanged instead of
`var_BarcodeImg`. -/
theorem C1_counterexample :
    _decode_ai_id "var_x5F_BarcodeImg" = "var_x5F_BarcodeImg"
    ∧ ¬ _decode_ai_id "var_x5F_BarcodeImg" = "var_BarcodeImg" := by
  constructor
  · rfl
  · decide

/-- C1 (amended): the identifier codec replaces every occurrence of
`_xHHHH_` (exactly four case-insensitive hex digits) by the character
with that code point, and is the identity on strings without the
pattern (in particular it is the identity on already-decoded strings);
the representative `var_x005F_BarcodeImg` decodes to
`var_BarcodeImg`, while `var_x5F_BarcodeImg` (a two-hex-digit escape)
is returned unchanged. -/
theorem C1_decode_amended :
    (∀ s : String, hasEsc s.data = false → _decode_ai_id s = s)
    ∧ (∀ (h1 h2 h3 h4 : Char) (rest : List Char),
        isHexDig h1 = true → isHexDig h2 = true → isHexDig h3 = true →
        isHexDig h4 = true →
        decodeList ('_' :: 'x' :: h1 :: h2 :: h3 :: h4 :: '_' :: rest)
          = Char.ofNat (((hexVal h1 * 16 + hexVal h2) * 16 + hexVal h3) * 16 + hexVal h4)
            :: decodeList rest)
    ∧ _decode_ai_id "var_x005F_BarcodeImg" = "var_BarcodeImg"
    ∧ _decode_ai_id "var_x5F_BarcodeImg" = "var_x5F_BarcodeImg" := by
  refine ⟨?_, decodeList_esc_step, by rfl, by rfl⟩
  intro s h
  cases s with
  | mk data => exact congrArg String.mk (decodeList_no_esc data h)

/-- C1 (witness): the amended theorem applied at concrete inputs. -/
theorem C1_witness :
    (hasEsc "plain".data = false ∧ _decode_ai_id "plain" = "plain")
    ∧ (isHexDig '0' = true
       ∧ decodeList ('_' :: 'x' :: '0' :: '0' :: '5' :: 'F' :: '_' :: ['Z'])
          = Char.ofNat (((hexVal '0' * 16 + hexVal '0') * 16 + hexVal '5') * 16 + hexVal 'F')
            :: decodeList ['Z']) :=
  ⟨⟨by decide, C1_decode_amended.1 "plain" (by decide)⟩,
   ⟨by decide,
    C1_decode_amended.2.1 '0' '0' '5' 'F' ['Z'] (by decide) (by decide) (by decide) (by decide)⟩⟩

/-- C2 (code bug, evaluated at the failing input): the truncation
marker the program appends is not a single ellipsis character — the
literal at src/engine/templater.py line 41 is the three-character
mojibake of U+2026 (see `truncMarker`).  On an element declaring max
length 4 with the value "abcdef", the program therefore produces the
truncated prefix "abc" followed by the three marker characters: six
characters, exceeding the declared bound of 4, and not ending in one
ellipsis character — contrary to the claim and to the spec's stated
truncation policy (truncate to maxlen - 1 characters, append a single
ellipsis, output length at most maxlen).  With no max-length attribute
the value is still set verbatim, as claimed. -/
theorem C2_mojibake_eval :
    truncMarker.length = 3
    ∧ ¬ truncMarker = "\u2026"
    ∧ (_set_text (Elem.mk "text" [("data-maxlen", "4")] "" ElemList.nil) "abcdef").text
        = "abc" ++ truncMarker
    ∧ ¬ (((_set_text (Elem.mk "text" [("data-maxlen", "4")] "" ElemList.nil)
            "abcdef").text.length : Int) ≤ 4)
    ∧ (_set_text (Elem.mk "text" [] "" ElemList.nil) "abcdef").text = "abcdef" := by
  refine ⟨rfl, by decide, by decide, by decide, rfl⟩

/-- C3 (counterexample): with zero documents the code computes
`rows = max(1, ceil) = 1`, not `ceil(0 / 6) = 0` as the claim states
for every n ≥ 0. -/
theorem C3_counterexample :
    (svgs_grid_to_pdf 0 "A4" 6 10 6).rows = 1
    ∧ ¬ (svgs_grid_to_pdf 0 "A4" 6 10 6).rows = 0 ⌈/⌉ (6 : Int).toNat := by
  constructor
  · rfl
  · decide

/-- C3 (amended): for n ≥ 1 documents and column count c ≥ 1 the
computed row count is the ceiling division n ⌈/⌉ c, the document at
linear index i is assigned cell (i div c, i mod c) — a row-major
assignment: row * c + col recovers i and col < c — and n = 7, c = 6
gives 2 rows.  (For n = 0 the code uses max(1, ·) = 1 row, and c ≤ 0
is clamped to 1 column.) -/
theorem C3_grid_amended (n : Nat) (c : Int) (tag : String) (m g : ℚ)
    (hn : 1 ≤ n) (hc : 1 ≤ c) :
    (svgs_grid_to_pdf n tag c m g).rows = n ⌈/⌉ c.toNat
    ∧ (∀ i, i < n → (svgs_grid_to_pdf n tag c m g).cells.get? i
        = some (i / c.toNat, i % c.toNat))
    ∧ (∀ i, i < n → c.toNat * (i / c.toNat) + i % c.toNat = i ∧ i % c.toNat < c.toNat)
    ∧ (svgs_grid_to_pdf 7 tag 6 m g).rows = 2 := by
  have hgc : gridCols c = c.toNat := by unfold gridCols; omega
  have h0 : 0 < c.toNat := by omega
  refine ⟨?_, ?_, ?_, ?_⟩
  · show gridRowsCount n c = n ⌈/⌉ c.toNat
    unfold gridRowsCount
    rw [hgc]
    have hge : 1 ≤ (n + c.toNat - 1) / c.toNat := by
      rw [Nat.le_div_iff_mul_le h0]
      omega
    rw [max_eq_right hge]
    rfl
  · intro i hi
    show ((List.range n).map (fun idx => (idx / gridCols c, idx % gridCols c))).get? i = _
    rw [List.get?_map, List.get?_range hi, hgc]
    rfl
  · intro i hi
    exact ⟨Nat.div_add_mod i c.toNat, Nat.mod_lt i h0⟩
  · show gridRowsCount 7 6 = 2
    rfl

/-- C3 (witness): the amended theorem applied at n = 7, c = 6. -/
theorem C3_witness :
    ((1 : Nat) ≤ 7 ∧ (1 : Int) ≤ 6)
    ∧ (svgs_grid_to_pdf 7 "A4" 6 10 6).rows = 7 ⌈/⌉ (6 : Int).toNat
    ∧ (svgs_grid_to_pdf 7 "A4" 6 10 6).cells.get? 6
        = some (6 / (6 : Int).toNat, 6 % (6 : Int).toNat) :=
  ⟨⟨by decide, by decide⟩,
   (C3_grid_amended 7 6 "A4" 10 6 (by decide) (by decide)).1,
   (C3_grid_amended 7 6 "A4" 10 6 (by decide) (by decide)).2.1 6 (by decide)⟩

/-- C4: a key that matches no placeholder is silently ignored.  The
hypotheses say exactly that the key matches nothing: its token
`[[k]]` does not occur in the text after the full-name replacement
pass, the stripped token does not occur after the whole token pass,
and the decoded-id index of the parsed tree has no entry for the key.
Then extending the value map with that key changes neither the token
pass output nor the filled tree nor its serialization, and (the model
being total) no exception arises. -/
theorem C4_unmatched_key (s : String) (vs : List (String × String)) (k v : String)
    (t : Elem) (b : Option String)
    (h1 : hasSub (tokenOf k) (tokenFillFull s.data vs) = false)
    (h2 : hasSub (tokenOf (strippedKey k)) ((_token_fill s vs).data) = false)
    (h3 : lookupLast (walkIds t) k = none) :
    _token_fill s (vs ++ [(k, v)]) = _token_fill s vs
    ∧ fill_svg_tree t (vs ++ [(k, v)]) b = fill_svg_tree t vs b
    ∧ serializeElem (fill_svg_tree t (vs ++ [(k, v)]) b)
        = serializeElem (fill_svg_tree t vs b) := by
  have htree : fill_svg_tree t (vs ++ [(k, v)]) b = fill_svg_tree t vs b := by
    unfold fill_svg_tree
    rw [List.foldl_append]
    simp only [List.foldl_cons, List.foldl_nil]
    rw [show applyValue (walkIds t)
          (vs.foldl (fun acc kv => applyValue (walkIds t) acc kv.1 kv.2) t) k v
        = vs.foldl (fun acc kv => applyValue (walkIds t) acc kv.1 kv.2) t by
      unfold applyValue
      rw [h3]]
  have hB : (_token_fill s vs).data
      = (strippedPairs vs).foldl replStep (vs.foldl replStep s.data) := by
    show (vs ++ strippedPairs vs).foldl replStep s.data = _
    rw [List.foldl_append]
  have htok : _token_fill s (vs ++ [(k, v)]) = _token_fill s vs := by
    have hsp : strippedPairs (vs ++ [(k, v)]) = strippedPairs vs ++ [(strippedKey k, v)] := by
      simp [strippedPairs]
    have hdata : ((vs ++ [(k, v)]) ++ strippedPairs (vs ++ [(k, v)])).foldl replStep s.data
        = (vs ++ strippedPairs vs).foldl replStep s.data := by
      rw [hsp, List.foldl_append, List.foldl_append, List.foldl_append, List.foldl_append]
      simp only [List.foldl_cons, List.foldl_nil]
      rw [show replStep (vs.foldl replStep s.data) (k, v) = vs.foldl replStep s.data from
        replaceList_no_sub _ _ _ h1]
      rw [← hB]
      exact replaceList_no_sub _ _ _ h2
    exact congrArg String.mk hdata
  exact ⟨htok, htree, congrArg serializeElem htree⟩

/-- C4 (witness): the theorem applied at a concrete template, map and
unmatched key. -/
theorem C4_witness :
    (hasSub (tokenOf "var_B") (tokenFillFull "<svg>hello</svg>".data [("var_A", "1")]) = false
     ∧ hasSub (tokenOf (strippedKey "var_B"))
          ((_token_fill "<svg>hello</svg>" [("var_A", "1")]).data) = false
     ∧ lookupLast (walkIds (Elem.mk "svg" [] "hello" ElemList.nil)) "var_B" = none)
    ∧ _token_fill "<svg>hello</svg>" ([("var_A", "1")] ++ [("var_B", "2")])
        = _token_fill "<svg>hello</svg>" [("var_A", "1")]
    ∧ fill_svg_tree (Elem.mk "svg" [] "hello" ElemList.nil)
          ([("var_A", "1")] ++ [("var_B", "2")]) none
        = fill_svg_tree (Elem.mk "svg" [] "hello" ElemList.nil) [("var_A", "1")] none :=
  ⟨⟨by decide, by decide, by decide⟩,
   (C4_unmatched_key "<svg>hello</svg>" [("var_A", "1")] "var_B" "2"
      (Elem.mk "svg" [] "hello" ElemList.nil) none (by decide) (by decide) (by decide)).1,
   (C4_unmatched_key "<svg>hello</svg>" [("var_A", "1")] "var_B" "2"
      (Elem.mk "svg" [] "hello" ElemList.nil) none (by decide) (by decide) (by decide)).2.1⟩

/-- C5: fill is deterministic.  The embedded pipeline is a pure
function of template tree, value map and barcode image — the source
keeps no state across calls — so identical inputs give identical
(equal, hence byte-identical after serialization) outputs, and in a
batch, rows with equal inputs get equal outputs (no cross-row
effects). -/
theorem C5_fill_deterministic (t : Elem) (s : String) (vs : List (String × String))
    (b : Option String) (rows : List (List (String × String))) (i j : Nat)
    (hij : rows.get? i = rows.get? j) :
    _token_fill s vs = _token_fill s vs
    ∧ serializeElem (fill_svg_tree t vs b) = serializeElem (fill_svg_tree t vs b)
    ∧ (rows.map (fun r => serializeElem (fill_svg_tree t r b))).get? i
        = (rows.map (fun r => serializeElem (fill_svg_tree t r b))).get? j := by
  refine ⟨rfl, rfl, ?_⟩
  rw [List.get?_map, List.get?_map, hij]

/-- C5 (witness): two batch rows with identical value maps produce the
identical serialized output. -/
theorem C5_witness :
    (([[("a", "1")], [("a", "1")]] : List (List (String × String))).get? 0
        = ([[("a", "1")], [("a", "1")]] : List (List (String × String))).get? 1)
    ∧ (([[("a", "1")], [("a", "1")]] : List (List (String × String))).map
          (fun r => serializeElem (fill_svg_tree (Elem.mk "svg" [] "" ElemList.nil) r none))).get? 0
        = (([[("a", "1")], [("a", "1")]] : List (List (String × String))).map
          (fun r => serializeElem (fill_svg_tree (Elem.mk "svg" [] "" ElemList.nil) r none))).get? 1 :=
  ⟨by decide,
   (C5_fill_deterministic (Elem.mk "svg" [] "" ElemList.nil) "x" [] none
      [[("a", "1")], [("a", "1")]] 0 1 (by decide)).2.2⟩

/-- C6 (code bug, evaluated at the failing input): the template
indexes the canonical slot name `var_BarcodeImg` and its element IS an
image element, yet fill with a supplied data URI sets nothing: the
element has no children, lxml element truthiness makes it falsy in the
`or` chain of slot lookups, the remaining lookups return `None`, and
the whole chain yields `None`.  The output tree is unchanged and
carries no `href` attribute, contradicting the claim that both image
references are set. -/
theorem C6_barcode_slot_eval :
    walkIds (Elem.mk "svg" [] ""
        (elemsOf [Elem.mk "image" [("id", "var_BarcodeImg")] "" ElemList.nil]))
      = [("var_BarcodeImg", [0])]
    ∧ fill_svg_tree
        (Elem.mk "svg" [] ""
          (elemsOf [Elem.mk "image" [("id", "var_BarcodeImg")] "" ElemList.nil]))
        [] (some "data:image/png;base64,AAAA")
      = Elem.mk "svg" [] ""
          (elemsOf [Elem.mk "image" [("id", "var_BarcodeImg")] "" ElemList.nil])
    ∧ (Elem.mk "image" [("id", "var_BarcodeImg")] "" ElemList.nil).getAttr "href" = none := by
  refine ⟨by decide, by rfl, by rfl⟩

/-- C7: the barcode encoder rejects every empty payload (and `None`),
rejects every unknown symbology, rejects EAN-13 payloads whose digits
do not number 12 or 13 (an 11-digit payload in particular), and
re-encodes a 13-digit payload from its first 12 digits (check digit
dropped). -/
theorem C7_barcode_errors :
    (∀ kind : String,
      generate_barcode_png (some "") kind = Except.error "Empty barcode data"
      ∧ generate_barcode_png none kind = Except.error "Empty barcode data")
    ∧ (∀ kind d : String, ¬ pyUpper kind = "EAN13" → ¬ pyUpper kind = "CODE128" →
        isErrB (generate_barcode_png (some d) kind) = true)
    ∧ (∀ d : String, ¬ pyStrip d = "" →
        ¬ ((pyStrip d).data.filter Char.isDigit).length = 12 →
        ¬ ((pyStrip d).data.filter Char.isDigit).length = 13 →
        generate_barcode_png (some d) "EAN13"
          = Except.error "EAN-13 requires 12 or 13 digits")
    ∧ (∀ d : String, ((pyStrip d).data.filter Char.isDigit).length = 13 →
        generate_barcode_png (some d) "EAN13"
          = Except.ok (BarcodeOut.ean13Sym
              (String.mk (((pyStrip d).data.filter Char.isDigit).take 12))))
    ∧ generate_barcode_png (some "12345678901") "EAN13"
        = Except.error "EAN-13 requires 12 or 13 digits" := by
  refine ⟨fun kind => ⟨rfl, rfl⟩, ?_, ?_, ?_, by rfl⟩
  · intro kind d hk1 hk2
    unfold generate_barcode_png pyBarcodeCore
    by_cases hd : (pyStrip (orEmpty (some d)) == "") = true
    · rw [if_pos hd]
      rfl
    · rw [if_neg hd, if_neg (by simp [hk1]), if_neg (by simp [hk2])]
      rfl
  · intro d hne h12 h13
    have hne' : ¬ pyStrip (orEmpty (some d)) = "" := hne
    have h12' : ¬ ((pyStrip (orEmpty (some d))).data.filter Char.isDigit).length = 12 := h12
    have h13' : ¬ ((pyStrip (orEmpty (some d))).data.filter Char.isDigit).length = 13 := h13
    unfold generate_barcode_png pyBarcodeCore
    rw [if_neg (by simp [hne']), if_pos (by rfl), if_neg (by simp [h12', h13'])]
  · intro d h13
    have hne : ¬ pyStrip d = "" := by
      intro h
      rw [h] at h13
      exact absurd h13 (by decide)
    have hne' : ¬ pyStrip (orEmpty (some d)) = "" := hne
    have h13' : ((pyStrip (orEmpty (some d))).data.filter Char.isDigit).length = 13 := h13
    unfold generate_barcode_png pyBarcodeCore
    rw [if_neg (by simp [hne']), if_pos (by rfl), if_pos (by simp [h13']),
      if_pos (by simp [h13'])]
    rfl

/-- C7 (witness): the theorem applied at concrete payloads. -/
theorem C7_witness :
    (generate_barcode_png (some "") "EAN13" = Except.error "Empty barcode data")
    ∧ (¬ pyUpper "qr" = "EAN13" ∧ ¬ pyUpper "qr" = "CODE128"
       ∧ isErrB (generate_barcode_png (some "4006381333931") "qr") = true)
    ∧ (((pyStrip "4006381333931").data.filter Char.isDigit).length = 13
       ∧ generate_barcode_png (some "4006381333931") "EAN13"
          = Except.ok (BarcodeOut.ean13Sym
              (String.mk (((pyStrip "4006381333931").data.filter Char.isDigit).take 12)))) :=
  ⟨(C7_barcode_errors.1 "EAN13").1,
   ⟨by decide, by decide,
    C7_barcode_errors.2.1 "qr" "4006381333931" (by decide) (by decide)⟩,
   ⟨by decide, C7_barcode_errors.2.2.2.1 "4006381333931" (by decide)⟩⟩

/-- C8 (counterexample): the cell width is negative for a large column
count (1000 columns on A4 with the default margins), so "never a
negative cell width for all inputs" fails on the code. -/
theorem C8_counterexample : (svgs_grid_to_pdf 1 "A4" 1000 10 6).cellW < 0 := by
  show ((pageDimsOf "A4").1 - 2 * ((10 : ℚ) * mmUnit)
      - ((gridCols 1000 : ℚ) - 1) * ((6 : ℚ) * mmUnit)) / (gridCols 1000 : ℚ) < 0
  rw [show (pageDimsOf "A4").1 = 210 * mmUnit from rfl,
    show gridCols 1000 = 1000 from rfl, mmUnit]
  push_cast
  norm_num

/-- C8 (amended): a column count ≤ 0 is clamped to 1; both divisors of
the cell-size computation (clamped columns and row count) are always
positive, so no division by zero occurs; zero documents still yield a
layout (no cells, one row) rather than a failure; and the cell width
(resp. height) is nonnegative whenever margins and gutters fit the
page width (resp. height) — without that fit condition it can go
negative, as the counterexample shows. -/
theorem C8_grid_safety_amended :
    (∀ c : Int, c ≤ 0 → gridCols c = 1)
    ∧ (∀ (c : Int) (n : Nat), 0 < gridCols c ∧ 0 < gridRowsCount n c)
    ∧ (∀ (tag : String) (c : Int) (m g : ℚ),
        (svgs_grid_to_pdf 0 tag c m g).cells = []
        ∧ (svgs_grid_to_pdf 0 tag c m g).rows = 1)
    ∧ (∀ (n : Nat) (tag : String) (c : Int) (m g : ℚ),
        2 * (m * mmUnit) + ((gridCols c : ℚ) - 1) * (g * mmUnit) ≤ (pageDimsOf tag).1 →
        0 ≤ (svgs_grid_to_pdf n tag c m g).cellW)
    ∧ (∀ (n : Nat) (tag : String) (c : Int) (m g : ℚ),
        2 * (m * mmUnit) + ((gridRowsCount n c : ℚ) - 1) * (g * mmUnit) ≤ (pageDimsOf tag).2 →
        0 ≤ (svgs_grid_to_pdf n tag c m g).cellH) := by
  have hcols : ∀ c : Int, 0 < gridCols c := by
    intro c
    unfold gridCols
    omega
  have hrows : ∀ (n : Nat) (c : Int), 0 < gridRowsCount n c := by
    intro n c
    exact Nat.lt_of_lt_of_le Nat.one_pos (le_max_left _ _)
  refine ⟨?_, fun c n => ⟨hcols c, hrows n c⟩, ?_, ?_, ?_⟩
  · intro c hc
    unfold gridCols
    omega
  · intro tag c m g
    constructor
    · rfl
    · show gridRowsCount 0 c = 1
      unfold gridRowsCount
      rw [Nat.div_eq_of_lt (by have := hcols c; unfold gridCols at this ⊢; omega)]
      omega
  · intro n tag c m g h
    show 0 ≤ ((pageDimsOf tag).1 - 2 * (m * mmUnit)
        - ((gridCols c : ℚ) - 1) * (g * mmUnit)) / (gridCols c : ℚ)
    apply div_nonneg
    · linarith
    · exact Nat.cast_nonneg _
  · intro n tag c m g h
    show 0 ≤ ((pageDimsOf tag).2 - 2 * (m * mmUnit)
        - ((gridRowsCount n c : ℚ) - 1) * (g * mmUnit)) / (gridRowsCount n c : ℚ)
    apply div_nonneg
    · linarith
    · exact Nat.cast_nonneg _

/-- C8 (witness): the amended theorem applied at concrete inputs. -/
theorem C8_witness :
    ((-3 : Int) ≤ 0 ∧ gridCols (-3) = 1)
    ∧ (0 < gridCols 6 ∧ 0 < gridRowsCount 5 6)
    ∧ ((svgs_grid_to_pdf 0 "A4" 6 10 6).cells = []
       ∧ (svgs_grid_to_pdf 0 "A4" 6 10 6).rows = 1)
    ∧ (2 * ((10 : ℚ) * mmUnit) + ((gridCols 6 : ℚ) - 1) * ((6 : ℚ) * mmUnit)
          ≤ (pageDimsOf "A4").1
       ∧ 0 ≤ (svgs_grid_to_pdf 1 "A4" 6 10 6).cellW) :=
  ⟨⟨by decide, C8_grid_safety_amended.1 (-3) (by decide)⟩,
   C8_grid_safety_amended.2.1 6 5,
   C8_grid_safety_amended.2.2.1 "A4" 6 10 6,
   ⟨by rw [show (pageDimsOf "A4").1 = 210 * mmUnit from rfl,
        show gridCols 6 = 6 from rfl, mmUnit]; push_cast; norm_num,
    C8_grid_safety_amended.2.2.2.1 1 "A4" 6 10 6
      (by rw [show (pageDimsOf "A4").1 = 210 * mmUnit from rfl,
          show gridCols 6 = 6 from rfl, mmUnit]; push_cast; norm_num)⟩⟩

/-- The packager fold appends one member per entry, in order. -/
theorem zip_foldl (items : List (String × List Nat)) (acc : List ZipMember) :
    items.foldl (fun a nd => writestr a nd.1 nd.2) acc
      = acc ++ items.map (fun nd => ZipMember.mk nd.1 nd.2) := by
  induction items generalizing acc with
  | nil => simp
  | cons x rest ih => rw [List.foldl_cons, ih]; simp [writestr, List.append_assoc]

/-- C9: packaging k entries yields an archive with exactly k members;
the member at each position carries exactly the given name and the
byte-identical data (duplicate names are preserved as distinct
members, since members are kept positionally). -/
theorem C9_zip_pdfs (items : List (String × List Nat)) :
    (zip_pdfs items).length = items.length
    ∧ (∀ i : Nat, (zip_pdfs items).get? i
        = (items.get? i).map (fun nd => ZipMember.mk nd.1 nd.2)) := by
  have h : zip_pdfs items = items.map (fun nd => ZipMember.mk nd.1 nd.2) := by
    unfold zip_pdfs
    rw [zip_foldl]
    simp
  constructor
  · rw [h, List.length_map]
  · intro i
    rw [h, List.get?_map]

/-- C10: the payload is stripped before validation, so an all-
whitespace payload (or `None`) is rejected as empty; for EAN-13 the
non-digit characters are removed before counting, so a 13-embedded-
digit payload with separators is accepted and encoded from its first
12 digits. -/
theorem C10_strip_filter :
    (∀ s : String, s.data.all pyWhitespace = true →
      generate_barcode_png (some s) "EAN13" = Except.error "Empty barcode data")
    ∧ generate_barcode_png none "EAN13" = Except.error "Empty barcode data"
    ∧ generate_barcode_png (some "40-0638-13339-31") "EAN13"
        = Except.ok (BarcodeOut.ean13Sym "400638133393") := by
  refine ⟨?_, by rfl, by rfl⟩
  intro s hall
  have h1 : s.data.dropWhile pyWhitespace = [] := by
    rw [List.dropWhile_eq_nil_iff]
    intro x hx
    exact List.all_eq_true.mp hall x hx
  have h2 : pyStrip (orEmpty (some s)) = "" := by
    show pyStrip s = ""
    unfold pyStrip pyStripList
    rw [h1]
    rfl
  unfold generate_barcode_png pyBarcodeCore
  rw [if_pos (by simp [h2])]

/-- C10 (witness): the theorem applied at an all-whitespace payload. -/
theorem C10_witness :
    ("  ".data.all pyWhitespace = true)
    ∧ generate_barcode_png (some "  ") "EAN13" = Except.error "Empty barcode data" :=
  ⟨by decide, C10_strip_filter.1 "  " (by decide)⟩

end LabelApp



